import Mathlib

/-!
Shallow embedding of the Source-to-Rendered-View Synchronization & Decoration
Engine of the vscode-markdown-editor webview (`getSelectionLineRange`,
`applyDecorationsToVditor`, `clearDecorations` and their helpers).

JavaScript strings are modelled as `List Char`; the DOM elements read and
tagged by the engine are modelled as a flat list of `Elem` records carrying
their text, CSS class list, static selector membership and parent pointer.
The timer-driven deferred work of `applyDecorationsToVditor` is modelled as an
explicit pending-task queue: `setTimeout` bodies become `Task` values and
firing a timer is the `fireTask` step.
-/

namespace MdEditor

/-- Model of the JavaScript regular-expression class `\s` restricted to the
ASCII whitespace characters (space, tab, newline, carriage return, vertical
tab, form feed); the Unicode space characters JS also accepts never occur in
the inputs considered here. -/
def isSpaceChar (c : Char) : Bool :=
  c == ' ' || c == '\t' || c == '\n' || c == '\r' || c == Char.ofNat 11 || c == Char.ofNat 12

/-- Model of JavaScript `String.prototype.trim`: drop whitespace from both
ends. -/
def trimJS (l : List Char) : List Char :=
  ((l.dropWhile isSpaceChar).reverse.dropWhile isSpaceChar).reverse

/-- Worker for `collapseWs`; `prevWs` records whether the previous character
belonged to a whitespace run already emitted as a single space. -/
def collapseWsGo : Bool → List Char → List Char
  | _, [] => []
  | prevWs, c :: rest =>
    if isSpaceChar c then
      if prevWs then collapseWsGo true rest else ' ' :: collapseWsGo true rest
    else c :: collapseWsGo false rest

/-- Model of JavaScript `s.replace(/\s+/g, ' ')`: every maximal run of
whitespace characters becomes a single space. -/
def collapseWs (l : List Char) : List Char :=
  collapseWsGo false l

/-- Model of JavaScript `s.split('\n')`: split strictly on newline
boundaries, keeping empty segments (so the result is never empty and joining
with a newline restores the input). -/
def splitLines : List Char → List (List Char)
  | [] => [[]]
  | c :: rest =>
    if c = '\n' then [] :: splitLines rest
    else
      match splitLines rest with
      | [] => [[c]]
      | l :: ls => (c :: l) :: ls

/-- Model of JavaScript `lines.join('\n')`. -/
def joinLines : List (List Char) → List Char
  | [] => []
  | [l] => l
  | l :: l2 :: ls => l ++ '\n' :: joinLines (l2 :: ls)

/-- Model of JavaScript `hay.indexOf(needle)`: index of the first occurrence
of `needle` as a contiguous substring of `hay`, `none` standing for the
JavaScript result `-1`. -/
def indexOfSub (needle : List Char) : List Char → Option Nat
  | [] => if needle.isPrefixOf ([] : List Char) then some 0 else none
  | c :: t =>
    if needle.isPrefixOf (c :: t) then some 0
    else (indexOfSub needle t).map (· + 1)

/-- Model of JavaScript `hay.includes(needle)`. -/
def containsSub (hay needle : List Char) : Bool :=
  (indexOfSub needle hay).isSome

/-- Model of the cumulative line scan loops of `getSelectionLineRange`
(`src/unnamed/part_000` lines 1144-1172): walk the lines accumulating
`charCount` by `line.length + 1` and, at the first line whose span covers
`off`, return `(lineIndex, off - charCount)`; if the loop runs off the end the
JavaScript `let` defaults `dflt` are returned. -/
def lineScan (off : Nat) (dflt : Nat × Nat) : List (List Char) → Nat → Nat → Nat × Nat
  | [], _, _ => dflt
  | l :: rest, i, charCount =>
    if off < charCount + (l.length + 1) then (i, off - charCount)
    else lineScan off dflt rest (i + 1) (charCount + (l.length + 1))

/-- Model of the tier-3 fallback `for` loop of `getSelectionLineRange`: scan
the source lines in order for the first one containing `frag`, returning its
index and text. -/
def fallbackLoop (frag : List Char) : List (List Char) → Nat → Option (Nat × List Char)
  | [], _ => none
  | l :: rest, i =>
    if containsSub l frag then some (i, l) else fallbackLoop frag rest (i + 1)

/-- Model of the inner `while` of the tier-2 re-expansion loop: advance
`originalPos` while `originalPos < length - 1` and the next character is
whitespace (skipping a consecutive whitespace run, JS lines 1109-1111). -/
def skipWsRun (src : List Char) (p : Nat) : Nat :=
  if h : p < src.length - 1 ∧ isSpaceChar (src.getD (p + 1) ' ') then
    skipWsRun src (p + 1)
  else p
termination_by src.length - 1 - p
decreasing_by omega

/-- Model of the tier-2 `while` loop of `getSelectionLineRange` (JS lines
1104-1116): walk the original text one normalized step at a time until
`normalizedPos` reaches the normalized match index `nmi`, returning the
original position. -/
def remapGo (src : List Char) (nmi : Nat) (origPos normPos : Nat) : Nat :=
  if normPos < nmi ∧ origPos < src.length then
    let o1 := if isSpaceChar (src.getD origPos ' ') then skipWsRun src origPos else origPos
    remapGo src nmi (o1 + 1) (normPos + 1)
  else origPos
termination_by nmi - normPos
decreasing_by omega

/-- Model of the JavaScript indexing `parts[0]` applied to the never-empty
result of a split. -/
def headOrNil : List (List Char) → List Char
  | [] => []
  | l :: _ => l

/-- The `SelectionInfo` record produced by `getSelectionLineRange`; all line
and character coordinates are 0-indexed. -/
structure SelectionInfo where
  text : List Char
  startLine : Nat
  endLine : Nat
  startChar : Nat
  endChar : Nat
deriving DecidableEq

/-- Shallow embedding of `getSelectionLineRange` (`src/unnamed/part_000`
lines 1082-1183).  `vditorPresent` models the truthiness of `window.vditor`
and `sourceMarkdown` the result of `vditor.getValue()`.  Tier 1 is the exact
`indexOf` search, tier 2 the whitespace-normalized search with re-expansion,
tier 3 the first-line fallback scan; the JavaScript `null` result is `none`. -/
def getSelectionLineRange (vditorPresent : Bool) (sourceMarkdown selectedText : List Char) :
    Option SelectionInfo :=
  if !vditorPresent || selectedText.isEmpty then none
  else
    let lines := splitLines sourceMarkdown
    let normalizedSelection := trimJS (collapseWs selectedText)
    let matchIndex : Option Nat :=
      match indexOfSub selectedText sourceMarkdown with
      | some m => some m
      | none =>
        let normalizedSource := collapseWs sourceMarkdown
        match indexOfSub normalizedSelection normalizedSource with
        | some nmi => some (remapGo sourceMarkdown nmi 0 0)
        | none => none
    match matchIndex with
    | none =>
      let firstSelectionLine := trimJS (headOrNil (splitLines selectedText))
      match fallbackLoop firstSelectionLine lines 0 with
      | some (i, line) =>
        let selectionLines := splitLines selectedText
        some
          { text := selectedText
            startLine := i
            endLine := min (i + selectionLines.length - 1) (lines.length - 1)
            startChar := (indexOfSub firstSelectionLine line).getD 0
            endChar :=
              if selectionLines.length = 1 then
                (indexOfSub firstSelectionLine line).getD 0 + firstSelectionLine.length
              else (selectionLines.getLast?.getD []).length }
      | none => none
    | some m =>
      let sc := lineScan m (0, 0) lines 0 0
      let endIndex := m + selectedText.length
      let ec := lineScan endIndex (sc.1, sc.2 + selectedText.length) lines 0 0
      some
        { text := selectedText
          startLine := sc.1
          endLine := ec.1
          startChar := sc.2
          endChar := ec.2 }

/-! ### Decoration engine

Model of `applyDecorationsToVditor` / `clearDecorations`
(`src/unnamed/part_000` lines 1492-1699).  A DOM element inside the
`.vditor-ir` container is an `Elem`; `blockSel` records whether the element
matches the block-element selector used by strategies 1 and 2
(`'p, div.vditor-ir__node, h1..h6, li, pre, blockquote, td, th,
.vditor-ir__block'`) and `wideSel` whether it matches the wider last-resort
selector (`'p, div, h1..h6, li, pre, blockquote, .vditor-ir__node'`); both
depend only on tag names and on classes the engine never mutates, so they are
static.  `parent := none` models an element whose parent is the container
itself (or absent), which the code excludes from parent tagging. -/

/-- A DOM element of the rendered IR view. -/
structure Elem where
  text : List Char
  classes : List String
  blockSel : Bool
  wideSel : Bool
  parent : Option Nat
deriving DecidableEq

/-- The `decorations` message payload `{added, deleted, modified}` of line
indices (JavaScript numbers, so modelled as `Int`). -/
structure ChangeSet where
  added : List Int
  deleted : List Int
  modified : List Int
deriving DecidableEq

/-- A pending `setTimeout` callback of the decoration engine: `body d r` is
the 200 ms-deferred main body scheduled at JS line 1519, `full d r` a
deferred re-invocation of the whole `applyDecorationsToVditor` scheduled by
the retry at JS line 1523. -/
inductive Task where
  | body (d : ChangeSet) (retry : Nat)
  | full (d : ChangeSet) (retry : Nat)
deriving DecidableEq

/-- The observable state of the decoration engine: presence of the editor
object and of the `.vditor-ir` container, the editor's current mode
(`(window.vditor as any).vditor?.currentMode`, `none` when undefined), the
source buffer, the DOM elements of the container, the module-level
`previousMode` flag, the floating-toolbar visibility, and the queue of
pending timer callbacks. -/
structure DecState where
  vditorPresent : Bool
  irPresent : Bool
  currentMode : Option String
  source : List Char
  dom : List Elem
  previousMode : Option String
  toolbarVisible : Bool
  pending : List Task
deriving DecidableEq

def addedClassName : String := "cline-added-line"

def deletedClassName : String := "cline-deleted-line"

def modifiedClassName : String := "cline-modified-line"

def irNodeClassName : String := "vditor-ir__node"

/-- Model of `el.classList.add(cls)`: append the class if not present. -/
def addClass (cls : String) (e : Elem) : Elem :=
  if cls ∈ e.classes then e else { e with classes := e.classes ++ [cls] }

/-- Model of `el.classList.remove('cline-added-line', 'cline-deleted-line',
'cline-modified-line')` applied during `clearDecorations`. -/
def removeClineClasses (e : Elem) : Elem :=
  { e with
    classes := e.classes.filter fun c =>
      !(c == addedClassName || c == deletedClassName || c == modifiedClassName) }

/-- Shallow embedding of `clearDecorations` (`src/unnamed/part_000` lines
1679-1699): early return when the editor object or the `.vditor-ir`
container is absent; otherwise strip the three decoration classes from every
element in the container, reset the module-level `previousMode` flag and hide
the floating toolbar. -/
def clearDecorations (st : DecState) : DecState :=
  if !st.vditorPresent then st
  else if !st.irPresent then st
  else
    { st with
      dom := st.dom.map removeClineClasses
      previousMode := none
      toolbarVisible := false }

/-- Shallow embedding of the synchronous prefix of `applyDecorationsToVditor`
(`src/unnamed/part_000` lines 1500-1519): return when `window.vditor` is
absent (the `!decorations` half of the guard cannot fire here since the
payload is always a value); otherwise clear existing decorations, capture the
current mode into `previousMode` if none is saved (`currentMode || 'ir'`),
and schedule the 200 ms-deferred main body. -/
def applySync (d : ChangeSet) (retry : Nat) (st : DecState) : DecState :=
  if !st.vditorPresent then st
  else
    let st1 := clearDecorations st
    let st2 :=
      if st1.previousMode = none then
        { st1 with previousMode := some (st1.currentMode.getD "ir") }
      else st1
    { st2 with pending := st2.pending ++ [Task.body d retry] }

/-- Normalized element text used by strategy 1:
`(el.textContent || '').replace(/\s+/g, ' ').trim()`. -/
def elemNormText (e : Elem) : List Char :=
  trimJS (collapseWs e.text)

/-- The inner `for` loop of strategy 1 (JS lines 1550-1565): scan the block
elements in document order for the first unreserved one whose normalized text
equals or contains the normalized line text, or (for lines longer than 20
characters) contains its first 20 characters. -/
def findMatch1 (dom : List Elem) (used : List Nat) (nLn : List Char) : List Nat → Option Nat
  | [] => none
  | i :: rest =>
    if used.contains i then findMatch1 dom used nLn rest
    else
      match dom.get? i with
      | none => findMatch1 dom used nLn rest
      | some e =>
        let nEl := elemNormText e
        if nEl == nLn || containsSub nEl nLn ||
            (decide (20 < nLn.length) && containsSub nEl (nLn.take 20)) then some i
        else findMatch1 dom used nLn rest

/-- Strategy 1 of the line-to-element mapping (JS lines 1546-1567): for each
non-blank source line in order, reserve the first matching block element. -/
def strat1 (dom : List Elem) (blockIdxs : List Nat) (lines : List (List Char)) :
    List (Nat × Nat) × List Nat :=
  lines.enum.foldl
    (fun acc p =>
      let lineIndex := p.1
      let line := p.2
      if (trimJS line).isEmpty then acc
      else
        let nLn := trimJS (collapseWs (trimJS line))
        match findMatch1 dom acc.2 nLn blockIdxs with
        | some i => (acc.1 ++ [(lineIndex, i)], acc.2 ++ [i])
        | none => acc)
    ([], [])

/-- The inner `for` loop of strategy 2 (JS lines 1584-1597): scan the block
elements from the monotonic cursor position onwards for the first unreserved,
non-empty one related to the line by a 15-character bidirectional prefix
containment test; the input pairs are `(cursor position, element index)`. -/
def findMatch2 (dom : List Elem) (used : List Nat) (lineText : List Char) :
    List (Nat × Nat) → Option (Nat × Nat)
  | [] => none
  | (j, i) :: rest =>
    if used.contains i then findMatch2 dom used lineText rest
    else
      match dom.get? i with
      | none => findMatch2 dom used lineText rest
      | some e =>
        let elText := trimJS e.text
        if !elText.isEmpty &&
            (containsSub elText (lineText.take (min 15 lineText.length)) ||
              containsSub lineText (elText.take (min 15 elText.length))) then some (j, i)
        else findMatch2 dom used lineText rest

/-- Strategy 2 of the line-to-element mapping (JS lines 1578-1599): for
still-unmapped non-blank lines, match by position with a monotonic element
cursor; reserving an element advances the cursor past it. -/
def strat2 (dom : List Elem) (blockIdxs : List Nat) (lines : List (List Char))
    (acc0 : List (Nat × Nat) × List Nat) : List (Nat × Nat) × List Nat :=
  let r :=
    lines.enum.foldl
      (fun acc p =>
        let lineIndex := p.1
        let line := p.2
        let lmap := acc.1
        let used := acc.2.1
        let elementIndex := acc.2.2
        if (lmap.lookup lineIndex).isNone && !(trimJS line).isEmpty &&
            decide (elementIndex < blockIdxs.length) then
          let lineText := trimJS line
          match findMatch2 dom used lineText (blockIdxs.enum.drop elementIndex) with
          | some (j, i) => (lmap ++ [(lineIndex, i)], used ++ [i], j + 1)
          | none => acc
        else acc)
      (acc0.1, acc0.2, 0)
  (r.1, r.2.1)

/-- Strategy 3 of the line-to-element mapping (JS lines 1602-1631): any line
still unmapped is assigned the nearest already-mapped element, scanning
backward first, then forward; assignments made here are visible to later
iterations. -/
def strat3 (linesLen : Nat) (lmap0 : List (Nat × Nat)) : List (Nat × Nat) :=
  (List.range linesLen).foldl
    (fun lmap lineIndex =>
      if (lmap.lookup lineIndex).isNone then
        let before := (List.range lineIndex).reverse.findSome? fun i => lmap.lookup i
        let after := ((List.range linesLen).drop (lineIndex + 1)).findSome? fun i => lmap.lookup i
        match before with
        | some e => lmap ++ [(lineIndex, e)]
        | none =>
          match after with
          | some e => lmap ++ [(lineIndex, e)]
          | none => lmap
      else lmap)
    lmap0

/-- The full line-to-element mapping built by the main body (JS lines
1536-1631): collect the block elements in document order, then run the three
strategies in sequence. -/
def buildMapping (lines : List (List Char)) (dom : List Elem) : List (Nat × Nat) :=
  let blockIdxs := (List.range dom.length).filter fun i => ((dom.get? i).map Elem.blockSel).getD false
  strat3 lines.length (strat2 dom blockIdxs lines (strat1 dom blockIdxs lines)).1

/-- Shallow embedding of the `applyDecorationToLine` closure
(`src/unnamed/part_000` lines 1634-1662): out-of-range line numbers return
immediately; a mapped element is tagged (and its parent too when the parent
is a `.vditor-ir__node` distinct from the container); an unmapped non-blank
line falls back to tagging the first element of the wider selector whose text
contains the line (or its first 15 characters for lines longer than 15). -/
def applyDecorationToLine (lines : List (List Char)) (lmap : List (Nat × Nat)) (cls : String)
    (dom : List Elem) (lineNum : Int) : List Elem :=
  if lineNum < 0 ∨ (lines.length : Int) ≤ lineNum then dom
  else
    let ln := lineNum.toNat
    match lmap.lookup ln with
    | some ei =>
      match dom.get? ei with
      | none => dom
      | some e =>
        let dom1 := dom.set ei (addClass cls e)
        match e.parent with
        | none => dom1
        | some p =>
          match dom1.get? p with
          | none => dom1
          | some pe =>
            if irNodeClassName ∈ pe.classes then dom1.set p (addClass cls pe) else dom1
    | none =>
      let lineText := trimJS (lines.getD ln [])
      if lineText.isEmpty then dom
      else
        let wideIdxs := (List.range dom.length).filter fun i =>
          ((dom.get? i).map Elem.wideSel).getD false
        match
          wideIdxs.find? fun i =>
            match dom.get? i with
            | none => false
            | some e =>
              containsSub e.text lineText ||
                (decide (15 < lineText.length) && containsSub e.text (lineText.take 15))
        with
        | some fi =>
          match dom.get? fi with
          | none => dom
          | some fe => dom.set fi (addClass cls fe)
        | none => dom

/-- The three decoration passes of the main body (JS lines 1665-1667): tag
added, then deleted, then modified line indices. -/
def applyAll (d : ChangeSet) (lines : List (List Char)) (lmap : List (Nat × Nat))
    (dom : List Elem) : List Elem :=
  let d1 := d.added.foldl (applyDecorationToLine lines lmap addedClassName) dom
  let d2 := d.deleted.foldl (applyDecorationToLine lines lmap deletedClassName) d1
  d.modified.foldl (applyDecorationToLine lines lmap modifiedClassName) d2

/-- Shallow embedding of the 200 ms-deferred main body of
`applyDecorationsToVditor` (`src/unnamed/part_000` lines 1519-1672): when the
container or the editor is absent, schedule a full re-invocation if fewer
than 5 retries have happened, else give up silently; otherwise rebuild the
line-to-element mapping against the current tree, run the three tagging
passes, and show the floating toolbar when the union of the three index sets
is non-empty (`touched.size > 0`). -/
def runBody (d : ChangeSet) (retry : Nat) (st : DecState) : DecState :=
  if !st.irPresent || !st.vditorPresent then
    if retry < 5 then { st with pending := st.pending ++ [Task.full d (retry + 1)] } else st
  else
    let lines := splitLines st.source
    let lmap := buildMapping lines st.dom
    let st1 := { st with dom := applyAll d lines lmap st.dom }
    if !(d.added ++ d.deleted ++ d.modified).isEmpty then { st1 with toolbarVisible := true }
    else st1

/-- Fire the pending timer callback at queue position `i`: remove it from the
queue and run it (a `body` runs the deferred main body, a `full` re-enters
`applyDecorationsToVditor` with its captured retry count). -/
def fireTask (i : Nat) (st : DecState) : DecState :=
  match st.pending.get? i with
  | none => st
  | some (Task.body d r) => runBody d r { st with pending := st.pending.eraseIdx i }
  | some (Task.full d r) => applySync d r { st with pending := st.pending.eraseIdx i }

/-- An external call `applyDecorationsToVditor(decorations)` (default
`retry = 0`). -/
def applyDecorations (d : ChangeSet) (st : DecState) : DecState :=
  applySync d 0 st

/-! ### Concrete scenarios used by the claim theorems -/

/-- A single rendered block element with text `hi` and no decoration
classes. -/
def hiElem : Elem :=
  { text := ['h', 'i'], classes := [], blockSel := true, wideSel := true, parent := none }

/-- C1 scenario, initial state: editor present, rendered container not yet
present, one source line `hi`. -/
def c1s0 : DecState :=
  { vditorPresent := true, irPresent := false, currentMode := some "ir"
    source := ['h', 'i'], dom := [hiElem], previousMode := none
    toolbarVisible := false, pending := [] }

/-- C1 scenario after: apply(A) with the tree absent (defers), A's body fires
and schedules A's retry, the renderer comes up, `clearDecorations()` runs,
apply(B) runs and B's body fires.  A's stale retry is still pending. -/
def c1beforeStale : DecState :=
  fireTask 1
    (applyDecorations { added := [], deleted := [], modified := [0] }
      (clearDecorations
        { fireTask 0
            (applyDecorations { added := [0], deleted := [], modified := [] } c1s0) with
          irPresent := true }))

/-- C1 scenario final state: A's stale retry fires (a `full` re-invocation)
and then its re-scheduled body fires. -/
def c1afterStale : DecState :=
  fireTask 0 (fireTask 0 c1beforeStale)

/-! ### Helper lemmas -/

/-- Filtering a list twice with the same predicate equals filtering once. -/
theorem filter_self_idem {α : Type} (p : α → Bool) (l : List α) :
    (l.filter p).filter p = l.filter p := by
  induction l with
  | nil => rfl
  | cons a t ih =>
    by_cases h : p a <;> simp [List.filter_cons, h, ih]

/-- Removing the decoration classes from an element is idempotent. -/
theorem removeClineClasses_idem (e : Elem) :
    removeClineClasses (removeClineClasses e) = removeClineClasses e := by
  simp [removeClineClasses, filter_self_idem]

/-- `splitLines` never returns an empty list of lines. -/
theorem splitLines_ne_nil (t : List Char) : splitLines t ≠ [] := by
  cases t with
  | nil => simp [splitLines]
  | cons c rest =>
    by_cases h : c = '\n'
    · simp [splitLines, h]
    · simp only [splitLines, if_neg h]
      cases hs : splitLines rest <;> simp

/-- If no source line contains the fragment, the fallback scan finds
nothing, whatever the running index. -/
theorem fallbackLoop_eq_none (frag : List Char) (lines : List (List Char))
    (h : ∀ l ∈ lines, containsSub l frag = false) :
    ∀ i, fallbackLoop frag lines i = none := by
  induction lines with
  | nil => intro i; rfl
  | cons a t ih =>
    intro i
    have ha : containsSub a frag = false := h a (by simp)
    simp only [fallbackLoop, ha, Bool.false_eq_true, if_false]
    exact ih (fun l hl => h l (by simp [hl])) (i + 1)

/-! ### Claim theorems -/

/-- Claim C1, counterexample: run the C1 scenario — apply(A) defers while the
tree is absent and schedules a retry; the tree appears; `clear()` and then
apply(B) run, leaving the single node tagged only with B's modified class;
then A's stale retry fires.  Contrary to the claim, the stale retry does tag
a node: afterwards the node carries A's added class (B's tag is gone). -/
theorem claim1_counterexample :
    c1beforeStale.dom.map Elem.classes = [[modifiedClassName]] ∧
    c1afterStale.dom.map Elem.classes = [[addedClassName]] := by
  decide

/-- Claim C1, amended: there is no generation token in the code — a stale
retry re-enters the full `applyDecorationsToVditor`, so when A's stale retry
fires after `clear()` and apply(B), it clears B's decorations and re-applies
A's: the final state of the C1 scenario has the node tagged with A's added
class, the toolbar visible and no pending work. -/
theorem claim1_amended :
    c1afterStale =
      { vditorPresent := true, irPresent := true, currentMode := some "ir"
        source := ['h', 'i']
        dom := [{ hiElem with classes := [addedClassName] }]
        previousMode := some "ir", toolbarVisible := true, pending := [] } := by
  decide

/-- Claim C2, code-bug evaluation: with the editor and container present,
apply `{modified:[0]}` while the mode is `wysiwyg` (it is captured), let the
mode change to `sv`, then apply `{added:[0]}` with no intervening `clear()`.
The second apply's internal `clearDecorations()` resets `previousMode` to
null, so the guarded capture re-runs and the saved mode ends as `sv`, not the
`wysiwyg` captured at the first apply — the capture-once guard at JS line
1511 is defeated by the unconditional clear at line 1508. -/
theorem claim2_code_bug_eval :
    (let t0 : DecState :=
      { vditorPresent := true, irPresent := true, currentMode := some "wysiwyg"
        source := ['a'], dom := [], previousMode := none
        toolbarVisible := false, pending := [] }
     let u1 := applyDecorations { added := [], deleted := [], modified := [0] } t0
     let u4 := applyDecorations { added := [0], deleted := [], modified := [] }
       { fireTask 0 u1 with currentMode := some "sv" }
     u1.previousMode = some "wysiwyg" ∧ u4.previousMode = some "sv") := by
  decide

/-- Claim C3, counterexample: applying an all-empty change set is not a
no-op — starting from a state with a previously tagged node and no saved
mode, `applyDecorationsToVditor({added:[],deleted:[],modified:[]})`
synchronously clears the existing tag and captures the current mode into the
saved-mode pointer. -/
theorem claim3_counterexample :
    (let v0 : DecState :=
      { vditorPresent := true, irPresent := true, currentMode := some "wysiwyg"
        source := ['a']
        dom := [{ text := ['a'], classes := [addedClassName], blockSel := true,
                  wideSel := true, parent := none }]
        previousMode := none, toolbarVisible := false, pending := [] }
     let v1 := applyDecorations { added := [], deleted := [], modified := [] } v0
     v1.previousMode = some "wysiwyg" ∧ v1.dom.map Elem.classes = [[]]) := by
  decide

/-- Claim C3, amended: an apply whose three sets are all empty tags no node
and leaves the affordance hidden, but it is not a complete no-op — it still
performs a `clear()` (the final DOM equals the cleared DOM) and captures the
current mode into the saved-mode pointer. -/
theorem claim3_amended (st : DecState)
    (hv : st.vditorPresent = true) (hi : st.irPresent = true) (hp : st.pending = []) :
    (let s :=
      fireTask 0 (applyDecorations { added := [], deleted := [], modified := [] } st)
     s.dom = (clearDecorations st).dom ∧ s.toolbarVisible = false ∧
       s.previousMode = some (st.currentMode.getD "ir") ∧ s.pending = []) := by
  simp [applyDecorations, applySync, clearDecorations, fireTask, runBody, applyAll,
    hv, hi, hp]

/-- Claim C3, witness: the amended statement at a concrete one-line, one-tag
state. -/
theorem claim3_witness :
    (let v0 : DecState :=
      { vditorPresent := true, irPresent := true, currentMode := some "sv"
        source := ['a']
        dom := [{ text := ['a'], classes := [deletedClassName], blockSel := true,
                  wideSel := true, parent := none }]
        previousMode := none, toolbarVisible := true, pending := [] }
     let s := fireTask 0 (applyDecorations { added := [], deleted := [], modified := [] } v0)
     s.dom = (clearDecorations v0).dom ∧ s.toolbarVisible = false ∧
       s.previousMode = some "sv" ∧ s.pending = []) :=
  claim3_amended _ rfl rfl rfl

/-- Claim C4, counterexample: apply `{added:[5]}` to a one-line document with
no rendered block elements — the tagging pass tags no line (index 5 is out of
range), yet the floating toolbar is made visible, because the code tests
`touched.size > 0` on the raw change set, not tagging success. -/
theorem claim4_counterexample :
    (let w0 : DecState :=
      { vditorPresent := true, irPresent := true, currentMode := some "ir"
        source := ['a'], dom := [], previousMode := none
        toolbarVisible := false, pending := [] }
     let w1 := fireTask 0 (applyDecorations { added := [5], deleted := [], modified := [] } w0)
     w1.dom = [] ∧ w1.toolbarVisible = true) := by
  decide

/-- Claim C4, amended: at the end of a non-deferred apply the affordance is
signalled visible exactly when the union of the added, deleted and modified
index lists is non-empty — whether any line was actually tagged is not
consulted. -/
theorem claim4_amended (d : ChangeSet) (st : DecState)
    (hv : st.vditorPresent = true) (hi : st.irPresent = true) (hp : st.pending = []) :
    (fireTask 0 (applyDecorations d st)).toolbarVisible =
      !(d.added ++ d.deleted ++ d.modified).isEmpty := by
  obtain ⟨a, dl, m⟩ := d
  cases a <;> cases dl <;> cases m <;>
    simp [applyDecorations, applySync, clearDecorations, fireTask, runBody,
      hv, hi, hp]

/-- Claim C4, witness: the amended statement at a concrete state and a
change set with one out-of-range added index. -/
theorem claim4_witness :
    (fireTask 0
        (applyDecorations { added := [5], deleted := [], modified := [] }
          { vditorPresent := true, irPresent := true, currentMode := some "ir"
            source := ['a'], dom := [], previousMode := none
            toolbarVisible := false, pending := [] })).toolbarVisible =
      !(([5] ++ [] ++ []: List Int)).isEmpty :=
  claim4_amended _ _ rfl rfl rfl

/-- Claim C5: when the exact-substring tier, the whitespace-normalized tier
and the first-line fallback tier all fail, `getSelectionLineRange` returns
the explicit no-match result `none` (the embedding is a total function, so no
exception can be raised). -/
theorem claim5_no_match (src sel : List Char) (hne : sel ≠ [])
    (h1 : indexOfSub sel src = none)
    (h2 : indexOfSub (trimJS (collapseWs sel)) (collapseWs src) = none)
    (h3 : ∀ l ∈ splitLines src, containsSub l (trimJS (headOrNil (splitLines sel))) = false) :
    getSelectionLineRange true src sel = none := by
  have hne' : sel.isEmpty = false := by
    cases sel with
    | nil => exact absurd rfl hne
    | cons a t => rfl
  simp [getSelectionLineRange, hne', h1, h2, fallbackLoop_eq_none _ _ h3 0]

/-- Claim C5, witness: document `abc`, selection `xyz` resolves to no
match. -/
theorem claim5_witness :
    getSelectionLineRange true ['a', 'b', 'c'] ['x', 'y', 'z'] = none :=
  claim5_no_match _ _ (by decide) (by decide) (by decide) (by decide)

/-- Claim C6: tier 1 of the selection resolver finds the first verbatim
occurrence of the selection (offset 2 for `b` in `a\nb\nc`) and maps it to
0-indexed line/character coordinates `{startLine 1, startChar 0, endLine 1,
endChar 1}`. -/
theorem claim6_tier1_example :
    indexOfSub ['b'] ['a', '\n', 'b', '\n', 'c'] = some 2 ∧
    getSelectionLineRange true ['a', '\n', 'b', '\n', 'c'] ['b'] =
      some { text := ['b'], startLine := 1, endLine := 1, startChar := 0, endChar := 1 } := by
  decide

/-- Claim C7: splitting on newline boundaries discards nothing — joining the
split of any text with a single newline separator reproduces the text
exactly, including for inputs ending in a newline. -/
theorem claim7_join_split (t : List Char) : joinLines (splitLines t) = t := by
  induction t with
  | nil => rfl
  | cons c rest ih =>
    by_cases h : c = '\n'
    · subst h
      simp only [splitLines, if_pos rfl]
      cases hs : splitLines rest with
      | nil => exact absurd hs (splitLines_ne_nil rest)
      | cons l ls =>
        rw [hs] at ih
        simp [joinLines, ih]
    · simp only [splitLines, if_neg h]
      cases hs : splitLines rest with
      | nil => exact absurd hs (splitLines_ne_nil rest)
      | cons l ls =>
        rw [hs] at ih
        cases ls with
        | nil =>
          simp only [joinLines] at ih ⊢
          simp [ih]
        | cons l2 ls2 =>
          simp only [joinLines] at ih ⊢
          simp [List.cons_append, ih]

/-- Claim C8: `clearDecorations` is idempotent — calling it twice yields the
same observable state (node classes, saved-mode pointer, toolbar visibility,
pending queue) as calling it once, on every state, including states where
nothing is applied. -/
theorem claim8_clear_idempotent (st : DecState) :
    clearDecorations (clearDecorations st) = clearDecorations st := by
  by_cases hv : st.vditorPresent
  · by_cases hi : st.irPresent
    · have hmap : ∀ l : List Elem,
          (l.map removeClineClasses).map removeClineClasses = l.map removeClineClasses := by
        intro l
        induction l with
        | nil => rfl
        | cons a t ih => simp [ih, removeClineClasses_idem]
      simp [clearDecorations, hv, hi, hmap]
    · simp [clearDecorations, hv, hi]
  · simp [clearDecorations, hv]

/-- Claim C9: the per-line tagging step skips any line index that is
negative or not below the number of source lines — the DOM is returned
unchanged and no error can arise (the embedding is total). -/
theorem claim9_out_of_range (lines : List (List Char)) (lmap : List (Nat × Nat))
    (cls : String) (dom : List Elem) (n : Int)
    (h : n < 0 ∨ (lines.length : Int) ≤ n) :
    applyDecorationToLine lines lmap cls dom n = dom := by
  unfold applyDecorationToLine
  rw [if_pos h]

/-- Claim C9, witness: tagging line `-1` of a one-line document leaves a
one-element DOM untouched. -/
theorem claim9_witness :
    applyDecorationToLine [['a']] [] addedClassName [hiElem] (-1) = [hiElem] :=
  claim9_out_of_range [['a']] [] addedClassName [hiElem] (-1) (by decide)

/-- Claim C10: `clearDecorations` invoked while the editor instance or the
rendered container is absent returns early and leaves the whole decoration
state unchanged. -/
theorem claim10_clear_absent (st : DecState)
    (h : st.vditorPresent = false ∨ st.irPresent = false) :
    clearDecorations st = st := by
  unfold clearDecorations
  rcases h with h | h <;> simp [h]

/-- Claim C10, witness: clearing with the rendered container absent leaves a
tagged state exactly as it was. -/
theorem claim10_witness :
    (let s0 : DecState :=
      { vditorPresent := true, irPresent := false, currentMode := some "ir"
        source := ['a']
        dom := [{ text := ['a'], classes := [modifiedClassName], blockSel := true,
                  wideSel := true, parent := none }]
        previousMode := some "wysiwyg", toolbarVisible := true, pending := [] }
     clearDecorations s0 = s0) :=
  claim10_clear_absent _ (Or.inr rfl)

end MdEditor

